import Mathlib

/-!
Verification of the v5 shift-creation tool core against its specification.

The definitions below are a shallow embedding of the Python source under
`src/api/` (solver.py, validation.py, state.py, index.py, models.py).
Integer hours, day indices and versions are modelled as `Nat` (the data
model restricts them to non-negative ranges); schedules and the various
JSON maps are modelled as association lists in insertion order; Python
dicts used purely as finite maps are looked up with `lookupD`.
-/

namespace ShiftTool

/-- A shift row from the configuration: `{code, name, start, end}` with
integer hours in `[0, 48)` (`models.Shift`; the display `name` is never
consulted by the core).  `end` is a Lean keyword, hence `stop`. -/
structure ShiftT where
  code : String
  start : Nat
  stop : Nat
deriving DecidableEq, Repr

/-- A roster member (`models.Person`). -/
structure PersonT where
  id : String
  canWork : List String
  fixedOffWeekdays : List String
  weeklyMin : Nat
  weeklyMax : Nat
  monthlyMin : Nat
  monthlyMax : Nat
  consecMax : Nat
deriving DecidableEq, Repr

instance : Inhabited PersonT := ⟨⟨"", [], [], 0, 0, 0, 0, 0⟩⟩

/-- Dictionary lookup with default (`dict.get(k, d)`): first binding wins;
the Python dicts embedded here never carry duplicate keys. -/
def lookupD {α : Type} (m : List (String × α)) (k : String) (d : α) : α :=
  match m.find? (fun e => e.1 == k) with
  | some e => e.2
  | none => d

/-- One pass of the `seen`-set de-duplication loops in solver.py: elements
already in `seen` are dropped, fresh ones are kept and recorded. -/
def dedupFirstAux (seen : List String) : List String → List String
  | [] => []
  | c :: rest =>
    if c ∈ seen then dedupFirstAux seen rest
    else c :: dedupFirstAux (seen ++ [c]) rest

/-- Order-preserving de-duplication keeping the first occurrence of each
element, as the `seen`-set loops in solver.py do. -/
def dedupFirst (l : List String) : List String := dedupFirstAux [] l

/-! ## Time-window mapper (`solver._parse_interval`, `_covers_interval`,
`_build_time_ranges`, `_build_specific_time_ranges`) -/

/-- `_parse_interval`: split `"a-b"`; a post-midnight range `0-b` with
`b ≤ 7` becomes `(24, 24 + b)`.  (Python's `int` raises on a malformed
label; only well-formed window labels occur, we default such parts to 0.) -/
def parseInterval (label : String) : Nat × Nat :=
  match label.splitOn "-" with
  | [s, e] =>
    let start := s.toNat?.getD 0
    let stop := e.toNat?.getD 0
    if start = 0 ∧ stop ≤ 7 then (24, 24 + stop) else (start, stop)
  | _ => (0, 0)

/-- `_covers_interval`: strict-overlap test of a shift against a window,
clipping the shift at midnight for daytime windows. -/
def coversInterval (shiftStart shiftEnd : Nat) (interval : Nat × Nat) : Bool :=
  let start := interval.1
  let stop := interval.2
  if start ≥ 24 then
    if shiftEnd ≤ 24 then false
    else decide (shiftStart < stop) && decide (shiftEnd > start)
  else if stop ≤ 24 then
    let effectiveEnd := min shiftEnd 24
    decide (shiftStart < stop) && decide (effectiveEnd > start)
  else
    decide (shiftStart < stop) && decide (shiftEnd > start)

/-- The fixed window table of `_build_time_ranges`; `0-7` is entered as
`(24, 31)` ("attribute post-midnight hours to the day the shift starts"). -/
def windowIntervals : List (String × Nat × Nat) :=
  [("7-9", 7, 9), ("9-15", 9, 15), ("16-18", 16, 18), ("18-24", 18, 24),
   ("0-7", 24, 31)]

/-- Same-day half of `_build_time_ranges`.  The source iterates shifts in
the outer loop appending per label, which per label yields exactly the
shifts (in input order) whose interval covers the window, de-duplicated. -/
def sameDayRanges (shifts : List ShiftT) : List (String × List String) :=
  windowIntervals.map fun iv =>
    (iv.1, dedupFirst ((shifts.filter fun s =>
      coversInterval s.start s.stop iv.2).map (·.code)))

/-- Carry-over half of `_build_time_ranges`: only shifts with `end > 24`
participate; their post-midnight portion `[max(start,24)-24, end-24)` is
strict-overlap tested against the window; windows whose stored interval
starts at or after 24 (that is, `0-7`) are skipped (`continue`). -/
def carryOverRanges (shifts : List ShiftT) : List (String × List String) :=
  windowIntervals.map fun iv =>
    (iv.1,
      if iv.2.1 ≥ 24 then []
      else dedupFirst (((shifts.filter fun s => decide (24 < s.stop)).filter fun s =>
        decide (max s.start 24 - 24 < iv.2.2) && decide (s.stop - 24 > iv.2.1)).map (·.code)))

/-- `_build_specific_time_ranges` (for strict bands): per label, the shifts
covering its parsed interval, in input order, no de-duplication. -/
def buildSpecificTimeRanges (shifts : List ShiftT) (labels : List String) :
    List (String × List String) :=
  labels.map fun label =>
    (label, (shifts.filter fun s =>
      coversInterval s.start s.stop (parseInterval label)).map (·.code))

/-- The spec's reading of the `0-7` carry-over matching: every shift whose
post-midnight portion strictly overlaps `[0, 7)` appears in
`carry_over["0-7"]`. -/
def CarryOverZeroSevenClaim (shifts : List ShiftT) : Prop :=
  ∀ s ∈ shifts, 24 < s.stop →
    max s.start 24 - 24 < 7 → 0 < s.stop - 24 →
    s.code ∈ lookupD (carryOverRanges shifts) "0-7" []

/-- The single night shift `21-31` of the claim's own example. -/
def shifts6 : List ShiftT := [⟨"N", 21, 31⟩]

/-! ## Rule post-validator (`validation.validate_schedule_rules`) -/

/-- `state._value_or_none`: index into the assignment row, `None` when out
of range (cells themselves are already `Option String`). -/
def valueOrNone (items : List (Option String)) (index : Nat) : Option String :=
  items.getD index none

/-- `validation._shift_duration`. -/
def shiftDuration : Option ShiftT → Nat
  | none => 0
  | some s => s.stop - s.start

/-- Mutable loop state of the per-person day walk in
`validate_schedule_rules`. -/
structure ValState where
  consecutiveDays : Nat
  weeklyHours : Nat
  monthlyHours : Nat
  violations : List String
deriving DecidableEq, Repr

/-- One iteration of the `for day_index in range(days)` loop of
`validate_schedule_rules`: resolve the cell to a shift (any cell that is
absent, empty, or not a known shift code — including the tokens `"明"`
and `"有給"` — resolves to `None`), add its hours, bump or reset the
consecutive counter, and close out the week on Sunday boundaries. -/
def validateDayStep (person : PersonT) (weekdayOfDay1 : Nat)
    (assignments : List (Option String)) (shiftMap : List (String × ShiftT))
    (st : ValState) (dayIndex : Nat) : ValState :=
  let assignment := valueOrNone assignments dayIndex
  let shift : Option ShiftT :=
    match assignment with
    | none => none
    | some a => if a = "" then none else (shiftMap.find? (fun e => e.1 == a)).map (·.2)
  let hours := shiftDuration shift
  let next :=
    match shift with
    | some _ =>
      let c := st.consecutiveDays + 1
      if c > person.consecMax then
        { st with
          consecutiveDays := c
          violations := st.violations ++
            [person.id ++ ": " ++ toString person.consecMax ++
              "日を超える連勤 (day " ++ toString (dayIndex + 1) ++ ")"] }
      else { st with consecutiveDays := c }
    | none => { st with consecutiveDays := 0 }
  let next := { next with
                weeklyHours := next.weeklyHours + hours
                monthlyHours := next.monthlyHours + hours }
  if (weekdayOfDay1 + dayIndex) % 7 = 6 then
    if next.weeklyHours > person.weeklyMax then
      { next with
        weeklyHours := 0
        violations := next.violations ++
          [person.id ++ ": 週の労働時間上限 " ++ toString person.weeklyMax ++
            "h を超過"] }
    else { next with weeklyHours := 0 }
  else next

/-- Violations collected for one person by `validate_schedule_rules`: the
day loop followed by the trailing weekly and monthly checks. -/
def validatePerson (person : PersonT) (shiftMap : List (String × ShiftT))
    (days weekdayOfDay1 : Nat) (assignments : List (Option String)) : List String :=
  let final := (List.range days).foldl
    (validateDayStep person weekdayOfDay1 assignments shiftMap)
    ⟨0, 0, 0, []⟩
  let v1 :=
    if final.weeklyHours > person.weeklyMax then
      final.violations ++
        [person.id ++ ": 週の労働時間上限 " ++ toString person.weeklyMax ++ "h を超過"]
    else final.violations
  if final.monthlyHours > person.monthlyMax then
    v1 ++ [person.id ++ ": 月の労働時間上限 " ++ toString person.monthlyMax ++ "h を超過"]
  else v1

/-- `validate_schedule_rules`: the aggregate violation list over all
people (the HTTP layer raises `RULE_VIOLATION` (400) exactly when this
list is non-empty). -/
def validateScheduleRules (schedule : List (String × List (Option String)))
    (people : List PersonT) (shifts : List ShiftT)
    (days weekdayOfDay1 : Nat) : List String :=
  people.flatMap fun person =>
    validatePerson person (shifts.map fun s => (s.code, s)) days weekdayOfDay1
      (lookupD schedule person.id [])

/-! ## Schedule state store (`state.py`, handlers in `index.py`) -/

/-- A cell-level difference (`models.ScheduleChange`). -/
structure ScheduleChangeT where
  personId : String
  dayIndex : Nat
  previous : Option String
  updated : Option String
deriving DecidableEq, Repr

/-- The persisted state (`models.ScheduleState`); the schedule maps a
person id to its row of cells. -/
structure ScheduleStateT where
  version : Nat
  locked : Bool
  schedule : List (String × List (Option String))
deriving DecidableEq, Repr

/-- `models.ScheduleSaveRequest`. -/
structure ScheduleSaveRequestT where
  schedule : List (String × List (Option String))
  baseVersion : Option Nat
deriving DecidableEq, Repr

/-- `models.ScheduleSaveResponse`. -/
structure ScheduleSaveResponseT where
  version : Nat
  locked : Bool
  changes : List ScheduleChangeT
deriving DecidableEq, Repr

/-- The two `HTTPException`s raised by `state.enforce_version_and_lock`,
with the payload their `detail` bodies carry. -/
inductive SaveError
  | locked (currentVersion : Nat)
  | versionConflict (currentVersion : Nat) (changes : List ScheduleChangeT)
deriving DecidableEq, Repr

/-- HTTP status of a `SaveError` (423 for `LOCKED`, 409 for
`VERSION_CONFLICT`). -/
def SaveError.statusCode : SaveError → Nat
  | .locked _ => 423
  | .versionConflict _ _ => 409

/-- The `reason` field of a `SaveError` body. -/
def SaveError.reason : SaveError → String
  | .locked _ => "LOCKED"
  | .versionConflict _ _ => "VERSION_CONFLICT"

/-- The `currentVersion` field of a `SaveError` body. -/
def SaveError.currentVersion : SaveError → Nat
  | .locked v => v
  | .versionConflict v _ => v

/-- Insertion sort with a boolean comparator, standing in for Python's
`sorted` (stable; comparator below is total). -/
def insertSorted (le : String → String → Bool) (a : String) :
    List String → List String
  | [] => [a]
  | b :: rest => if le a b then a :: b :: rest else b :: insertSorted le a rest

def sortStrings (le : String → String → Bool) : List String → List String
  | [] => []
  | a :: rest => insertSorted le a (sortStrings le rest)

/-- Lexicographic string comparison used by Python's `sorted` on str. -/
def strLe (a b : String) : Bool := !(compare a b == Ordering.gt)

/-- `state.compute_schedule_changes`: iterate the sorted union of person
ids; for each day index up to the longer row, emit a change whenever the
(null-safe) cells differ. -/
def computeScheduleChanges
    (previous updated : List (String × List (Option String))) :
    List ScheduleChangeT :=
  (sortStrings strLe (dedupFirst (previous.map (·.1) ++ updated.map (·.1)))).flatMap
    fun personId =>
      let prevDays := lookupD previous personId []
      let nextDays := lookupD updated personId []
      (List.range (max prevDays.length nextDays.length)).filterMap fun dayIndex =>
        let before := valueOrNone prevDays dayIndex
        let after := valueOrNone nextDays dayIndex
        if before = after then none
        else some ⟨personId, dayIndex, before, after⟩

/-- `state.build_save_response`. -/
def buildSaveResponse (state : ScheduleStateT) (changes : List ScheduleChangeT) :
    ScheduleSaveResponseT :=
  ⟨state.version, state.locked, changes⟩

/-- `state.enforce_version_and_lock`: the lock check runs first; only then
is a supplied `baseVersion` compared against the stored version. -/
def enforceVersionAndLock (request : ScheduleSaveRequestT)
    (currentState : ScheduleStateT) : Option SaveError :=
  if currentState.locked then some (.locked currentState.version)
  else
    match request.baseVersion with
    | some bv =>
      if bv ≠ currentState.version then
        some (.versionConflict currentState.version
          (computeScheduleChanges request.schedule currentState.schedule))
      else none
    | none => none

/-- File-system effects issued by the state store.  `write path state`
stands for dumping the state's UTF-8, indent-2, `ensure_ascii=False` JSON
into the file opened at `path`. -/
inductive FsOp
  | openWrite (path : String)
  | write (path : String) (content : ScheduleStateT)
  | rename (src dst : String)
deriving DecidableEq, Repr

/-- The path `STATE_FILE` of `state.py`. -/
def stateFilePath : String := "api/schedule_state.json"

/-- `state.save_schedule_state`: open the state file for writing and dump
the JSON into it — directly, in place. -/
def saveScheduleStateOps (state : ScheduleStateT) : List FsOp :=
  [.openWrite stateFilePath, .write stateFilePath state]

/-- The path a file-system operation writes to (opening for `"w"`
truncates, so it already destroys the previous content). -/
def FsOp.writesTo : FsOp → Option String
  | .openWrite p => some p
  | .write p _ => some p
  | .rename _ dst => some dst

/-- The claim's notion of an atomic save of `target`: all writes go to a
single temporary path distinct from `target`, and the final operation
renames that temporary file over `target`. -/
def AtomicTempRenameSave (ops : List FsOp) (target : String) : Prop :=
  ∃ tmp : String, tmp ≠ target
    ∧ (∀ op ∈ ops, op.writesTo = some target → op = .rename tmp target)
    ∧ ops.getLast? = some (.rename tmp target)

instance {ε α : Type} [DecidableEq ε] [DecidableEq α] : DecidableEq (Except ε α) :=
  fun x y =>
    match x, y with
    | .error a, .error b =>
      if h : a = b then .isTrue (by rw [h]) else .isFalse (by simp [h])
    | .ok a, .ok b =>
      if h : a = b then .isTrue (by rw [h]) else .isFalse (by simp [h])
    | .error _, .ok _ => .isFalse (by simp)
    | .ok _, .error _ => .isFalse (by simp)

/-- Outcome of a save handler: the HTTP-level result together with the
file-system operations the handler performed. -/
structure SaveOutcome where
  result : Except SaveError ScheduleSaveResponseT
  fsOps : List FsOp
deriving DecidableEq, Repr

/-- `index.save_draft`, parameterised by the state loaded from disk: the
version+lock guard runs first; on success the diff is computed against
the stored schedule and the state is persisted with `version + 1`,
`locked = False`. -/
def saveDraft (currentState : ScheduleStateT) (request : ScheduleSaveRequestT) :
    SaveOutcome :=
  match enforceVersionAndLock request currentState with
  | some e => ⟨.error e, []⟩
  | none =>
    let changes := computeScheduleChanges currentState.schedule request.schedule
    let nextState : ScheduleStateT :=
      ⟨currentState.version + 1, false, request.schedule⟩
    ⟨.ok (buildSaveResponse nextState changes), saveScheduleStateOps nextState⟩

/-- `index.finalize_schedule`: as `save_draft` but persisting
`locked = True`. -/
def finalizeSchedule (currentState : ScheduleStateT)
    (request : ScheduleSaveRequestT) : SaveOutcome :=
  match enforceVersionAndLock request currentState with
  | some e => ⟨.error e, []⟩
  | none =>
    let changes := computeScheduleChanges currentState.schedule request.schedule
    let nextState : ScheduleStateT :=
      ⟨currentState.version + 1, true, request.schedule⟩
    ⟨.ok (buildSaveResponse nextState changes), saveScheduleStateOps nextState⟩

/-! ## Constraint model builder (`solver.solve_shift_scheduling`)

The CP-SAT model is embedded as a satisfaction predicate over boolean
assignments `work : person index → day → shift code → Bool` and
`night_recovery : person index → day → Bool`: a family of constraints
emitted by the builder becomes the proposition that an assignment obeys
them, and `Feasible` is the conjunction of the families in the order the
source emits them.  The soft-objective part (shortage/overstaff/unmet
penalty terms) constrains nothing, so a boolean assignment is a solution
of the model exactly when `Feasible` holds. -/

/-- A pair-shift conflict rule after pydantic parsing: first person's
shifts, second person's shifts, day offset (`models.PairShiftConflictRule`;
the offset is a plain int and may be negative). -/
structure PairRuleT where
  firstPersonShifts : List String
  secondPersonShifts : List String
  dayOffset : Int
deriving DecidableEq, Repr

/-- `models.PairShiftConflict`. -/
structure PairConflictT where
  people : List String
  rules : List PairRuleT
deriving DecidableEq, Repr

/-- Everything `solve_shift_scheduling` reads from the reference
configuration (`input_data.json`) and from the `ScheduleRequest`, as far
as the hard-constraint model consumes it.  Fields whose only use is in
the soft objective or the renderer (`needTemplate`, `dayTypeByDate`) are
carried for the renderer embedding. -/
structure SolverInput where
  numDays : Nat
  weekdayOfDay1 : Nat
  shifts : List ShiftT
  dayTypeByDate : List String
  needTemplate : List (String × List (String × Nat))
  people : List PersonT
  nightRest : List (String × Nat)
  nightRecoveryCountsRaw : List (String × Nat)
  previousMonthNightCarry : List (String × List String)
  pairShiftConflictsData : List PairConflictT
  pairShiftConflictsRequest : List PairConflictT
  strictNight : List (String × Nat)
  wishOffs : List (String × List Nat)
  paidLeaves : List (String × List Nat)

/-- `all_shift_codes`: the configuration's shift codes in input order. -/
def allShiftCodes (input : SolverInput) : List String :=
  input.shifts.map (·.code)

def numPeople (input : SolverInput) : Nat := input.people.length

/-- The person at a roster index. -/
def personAt (input : SolverInput) (p : Nat) : PersonT :=
  input.people.getD p default

/-- The `person_indices` dict: built by enumeration, so a duplicate id
would map to its last index. -/
def personIndex (input : SolverInput) (personId : String) : Option Nat :=
  (List.range (numPeople input)).foldl
    (fun acc i => if (personAt input i).id = personId then some i else acc) none

/-- The clamped `night_recovery_counts` map: for every code mentioned in
`nightRest` or in the raw override map, the override (defaulting to the
rest value) clamped into `[0, rest_days]`; on `Nat` the lower clamp is
vacuous. -/
def nightRecoveryCounts (input : SolverInput) : List (String × Nat) :=
  (dedupFirst (input.nightRest.map (·.1) ++ input.nightRecoveryCountsRaw.map (·.1))).map
    fun code =>
      let restValue := lookupD input.nightRest code 0
      let recoveryValue := lookupD input.nightRecoveryCountsRaw code restValue
      (code, min recoveryValue restValue)

/-- The validated `previous_month_carry`: entries for unknown shift codes
are dropped, carried person ids de-duplicated, empty entries dropped
(the isinstance checks of the source are subsumed by typing). -/
def previousMonthCarryFiltered (input : SolverInput) :
    List (String × List String) :=
  input.previousMonthNightCarry.filterMap fun entry =>
    if (allShiftCodes input).contains entry.1 then
      let deduped := dedupFirst entry.2
      if deduped.isEmpty then none else some (entry.1, deduped)
    else none

/-- `initial_recovery_windows[p]`: the largest positive clamped recovery
count over the carry entries naming person `p`, 0 when none does.  The
source's max-update loop over the carry dict computes exactly this. -/
def initialRecoveryWindow (input : SolverInput) (p : Nat) : Nat :=
  (previousMonthCarryFiltered input).foldl
    (fun acc entry =>
      let restDays := lookupD input.nightRest entry.1 0
      let recoveryDays := lookupD (nightRecoveryCounts input) entry.1 restDays
      entry.2.foldl
        (fun acc2 personId =>
          if personIndex input personId = some p ∧ recoveryDays > acc2 then
            recoveryDays
          else acc2)
        acc)
    0

/-- Membership in `initial_recovery_people`: the source adds `p` exactly
when some carry entry naming `p` has a positive recovery count, which is
exactly a positive maximal window. -/
def isInitialRecoveryPerson (input : SolverInput) (p : Nat) : Bool :=
  0 < initialRecoveryWindow input p

/-- `previous_carry_counts[label]`: carried-person headcount summed over
the carry-over shifts of the window. -/
def previousCarryCount (input : SolverInput) (label : String) : Nat :=
  ((lookupD (carryOverRanges input.shifts) label []).map fun sCode =>
    (lookupD (previousMonthCarryFiltered input) sCode []).length).sum

/-- Conflict normalisation: configuration conflicts first, then request
conflicts; rules keep only shift codes known to the configuration and are
dropped when either side empties; a conflict survives only with a
two-person list and at least one surviving rule.  When both `柴田` and
`森川孝` are on the roster and no surviving conflict names that pair, the
source appends its hard-coded default conflict. -/
def normalizedConflicts (input : SolverInput) :
    List (String × String × List (List String × List String × Int)) :=
  let sources := input.pairShiftConflictsData ++ input.pairShiftConflictsRequest
  let normalized := sources.filterMap fun conflict =>
    if conflict.people.length = 2 then
      let rules := conflict.rules.filterMap fun rule =>
        let firstShifts := rule.firstPersonShifts.filter
          fun s => (allShiftCodes input).contains s
        let secondShifts := rule.secondPersonShifts.filter
          fun s => (allShiftCodes input).contains s
        if firstShifts.isEmpty ∨ secondShifts.isEmpty then none
        else some (firstShifts, secondShifts, rule.dayOffset)
      if rules.isEmpty then none
      else some (conflict.people.getD 0 "", conflict.people.getD 1 "", rules)
    else none
  if (personIndex input "森川孝").isSome ∧ (personIndex input "柴田").isSome
      ∧ ¬ (normalized.any fun t =>
            (t.1 == "森川孝" && t.2.1 == "柴田")
            || (t.1 == "柴田" && t.2.1 == "森川孝")
            || (t.1 == "森川孝" && t.2.1 == "森川孝")
            || (t.1 == "柴田" && t.2.1 == "柴田")) = true then
    normalized ++ [("柴田", "森川孝",
      [(["NC"], ["NA"], (0 : Int)), (["NC"], ["EA", "NA"], (1 : Int))])]
  else normalized

/-- Boolean work assignments and recovery assignments of the model. -/
def WorkAssign : Type := Nat → Nat → String → Bool

def RecoveryAssign : Type := Nat → Nat → Bool

/-- Constraints pinning `night_recovery[p, 0]` to the carry indicator and
pinning days `1 … min(numDays, window) − 1` to 1 for carried people. -/
def InitialRecoveryOk (input : SolverInput) (recovery : RecoveryAssign) : Prop :=
  (0 < input.numDays →
    ∀ p ∈ List.range (numPeople input),
      recovery p 0 = isInitialRecoveryPerson input p)
  ∧ ∀ p ∈ List.range (numPeople input),
      ∀ d ∈ List.range' 1 (min input.numDays (initialRecoveryWindow input p) - 1),
        recovery p d = true

/-- Pair-conflict constraints: for each normalised rule and each in-range
day pair, the two forbidden assignments cannot both hold. -/
def PairConflictsOk (input : SolverInput) (work : WorkAssign) : Prop :=
  ∀ c ∈ normalizedConflicts input,
    ∀ fIdx ∈ List.range (numPeople input),
      personIndex input c.1 = some fIdx →
      ∀ sIdx ∈ List.range (numPeople input),
        personIndex input c.2.1 = some sIdx →
        ∀ rule ∈ c.2.2, ∀ d ∈ List.range input.numDays,
          ∀ s1 ∈ rule.1, ∀ s2 ∈ rule.2.1,
            0 ≤ (d : Int) + rule.2.2 → (d : Int) + rule.2.2 < input.numDays →
            ¬ (work fIdx d s1 = true
                ∧ work sIdx ((d : Int) + rule.2.2).toNat s2 = true)

/-- At most one shift per person per day. -/
def AtMostOneShiftOk (input : SolverInput) (work : WorkAssign) : Prop :=
  ∀ p ∈ List.range (numPeople input), ∀ d ∈ List.range input.numDays,
    (allShiftCodes input).countP (fun s => work p d s) ≤ 1

/-- Eligibility: shifts outside `canWork` are pinned to 0. -/
def EligibilityOk (input : SolverInput) (work : WorkAssign) : Prop :=
  ∀ p ∈ List.range (numPeople input), ∀ d ∈ List.range input.numDays,
    ∀ s ∈ allShiftCodes input,
      ¬ (personAt input p).canWork.contains s = true → work p d s = false

/-- `paid_leave_days_by_index[p]`: the person's requested paid-leave days
restricted to `[0, numDays)`, de-duplicated (Python builds a set; the
source also drops non-int entries, subsumed by typing). -/
def paidLeaveDaysByIndex (input : SolverInput) (p : Nat) : List Nat :=
  ((lookupD input.paidLeaves (personAt input p).id []).filter
    fun d => decide (d < input.numDays)).eraseDups

/-- Worked-day count of a person over the month. -/
def assignedDaysCount (input : SolverInput) (work : WorkAssign) (p : Nat) : Nat :=
  ((List.range input.numDays).map
    fun d => (allShiftCodes input).countP (fun s => work p d s)).sum

/-- Recovery-day count of a person over the month. -/
def recoveryDaysCount (input : SolverInput) (recovery : RecoveryAssign) (p : Nat) : Nat :=
  (List.range input.numDays).countP (fun d => recovery p d)

/-- Monthly bounds: worked days + recovery days + paid-leave days lie in
`[monthlyMin, monthlyMax]` for every person. -/
def MonthlyBoundsOk (input : SolverInput) (work : WorkAssign)
    (recovery : RecoveryAssign) : Prop :=
  ∀ p ∈ List.range (numPeople input),
    (personAt input p).monthlyMin ≤
        assignedDaysCount input work p + recoveryDaysCount input recovery p
          + (paidLeaveDaysByIndex input p).length
    ∧ assignedDaysCount input work p + recoveryDaysCount input recovery p
          + (paidLeaveDaysByIndex input p).length ≤ (personAt input p).monthlyMax

/-- `night_shift_codes`: the `nightRest` codes present in the shift
table. -/
def nightShiftCodes (input : SolverInput) : List String :=
  (input.nightRest.map (·.1)).filter fun c => (allShiftCodes input).contains c

/-- `relevant_night_codes` for a person: eligible night codes with a
positive clamped recovery count. -/
def relevantNightCodes (input : SolverInput) (p : Nat) : List (String × Nat) :=
  (nightShiftCodes input).filterMap fun code =>
    let cnt := lookupD (nightRecoveryCounts input) code 0
    if (personAt input p).canWork.contains code ∧ 0 < cnt then some (code, cnt)
    else none

/-- `recovery_sources` feeding `night_recovery[p, d]`: for every relevant
night code and offset `1 … window`, the night assignment `work[p, d−k, c]`
(offsets reaching before day 0 are cut, as the source's `break` does). -/
def recoverySources (input : SolverInput) (p d : Nat) : List (Nat × String) :=
  (relevantNightCodes input p).flatMap fun pair =>
    (List.range' 1 pair.2).filterMap fun offset =>
      if offset ≤ d then some (d - offset, pair.1) else none

/-- Night-recovery definition constraints for days `1 … numDays − 1`:
with sources present, `night_recovery[p,d] ≤ Σ sources` and each source
implies the recovery; with no sources, the variable is pinned to 0 from
the end of any initial carry window on. -/
def NightRecoveryDefOk (input : SolverInput) (work : WorkAssign)
    (recovery : RecoveryAssign) : Prop :=
  ∀ p ∈ List.range (numPeople input), ∀ d ∈ List.range' 1 (input.numDays - 1),
    if (recoverySources input p d).isEmpty then
      initialRecoveryWindow input p ≤ d → recovery p d = false
    else
      (recovery p d = true →
        (recoverySources input p d).any (fun src => work p src.1 src.2) = true)
      ∧ ∀ src ∈ recoverySources input p d,
          work p src.1 src.2 = true → recovery p d = true

/-- Carry-over blocking: a person carried for night code `c` is barred
from every shift on days `0 … min(numDays, restDays + 1) − 1`. -/
def CarryBlockOk (input : SolverInput) (work : WorkAssign) : Prop :=
  ∀ entry ∈ previousMonthCarryFiltered input,
    ∀ personId ∈ entry.2,
      ∀ p ∈ List.range (numPeople input),
        personIndex input personId = some p →
        ∀ d ∈ List.range (min input.numDays (lookupD input.nightRest entry.1 0 + 1)),
          ∀ s ∈ allShiftCodes input, work p d s = false

/-- Night-rest constraints: for each eligible night code with rest value
`r` and each day `d` whose full rest window fits the horizon
(`d + r < numDays` — other days are skipped by the source), a night
assignment forces all shifts off on the following `r` days. -/
def NightRestOk (input : SolverInput) (work : WorkAssign) : Prop :=
  ∀ p ∈ List.range (numPeople input),
    ∀ entry ∈ input.nightRest,
      (personAt input p).canWork.contains entry.1 = true →
      ∀ d ∈ List.range input.numDays,
        d + entry.2 < input.numDays →
        work p d entry.1 = true →
        ∀ offset ∈ List.range' 1 entry.2,
          ∀ s ∈ allShiftCodes input, work p (d + offset) s = false

/-- Consecutive-work cap: skipped entirely when `consecMax = 0`;
otherwise every `consecMax + 1` window counts work, recovery and
paid-leave days against `consecMax`. -/
def ConsecutiveOk (input : SolverInput) (work : WorkAssign)
    (recovery : RecoveryAssign) : Prop :=
  ∀ p ∈ List.range (numPeople input),
    if (personAt input p).consecMax = 0 then True
    else
      ∀ d ∈ List.range (input.numDays - (personAt input p).consecMax),
        ((List.range' d ((personAt input p).consecMax + 1)).map
            fun day => (allShiftCodes input).countP (fun s => work p day s)).sum
          + (List.range' d ((personAt input p).consecMax + 1)).countP
              (fun day => recovery p day)
          + (List.range' d ((personAt input p).consecMax + 1)).countP
              (fun day => (paidLeaveDaysByIndex input p).contains day)
          ≤ (personAt input p).consecMax

/-- The weekday glyph of a 0-based day index. -/
def weekdayGlyph (input : SolverInput) (d : Nat) : String :=
  ["月", "火", "水", "木", "金", "土", "日"].getD
    ((input.weekdayOfDay1 % 7 + d) % 7) "月"

/-- Fixed weekday off: all shifts pinned to 0 on a person's fixed-off
weekdays. -/
def FixedOffOk (input : SolverInput) (work : WorkAssign) : Prop :=
  ∀ p ∈ List.range (numPeople input), ∀ d ∈ List.range input.numDays,
    (personAt input p).fixedOffWeekdays.contains (weekdayGlyph input d) = true →
    ∀ s ∈ allShiftCodes input, work p d s = false

/-- Requested days off: in-range wished days zero all shifts and the
recovery variable. -/
def WishOffOk (input : SolverInput) (work : WorkAssign)
    (recovery : RecoveryAssign) : Prop :=
  ∀ p ∈ List.range (numPeople input),
    ∀ d ∈ lookupD input.wishOffs (personAt input p).id [],
      d < input.numDays →
      (∀ s ∈ allShiftCodes input, work p d s = false) ∧ recovery p d = false

/-- Paid leave: leave days zero all shifts and the recovery variable. -/
def PaidLeaveOffOk (input : SolverInput) (work : WorkAssign)
    (recovery : RecoveryAssign) : Prop :=
  ∀ p ∈ List.range (numPeople input),
    ∀ d ∈ paidLeaveDaysByIndex input p,
      (∀ s ∈ allShiftCodes input, work p d s = false) ∧ recovery p d = false

/-- Parsed `strictNight` requirements: label stripped of a `_min`/`_max`
suffix (a bare label sets the minimum), later entries overwriting earlier
ones per side, insertion order preserved (`setdefault`). -/
def strictRequirements (input : SolverInput) :
    List (String × Option Nat × Option Nat) :=
  input.strictNight.foldl
    (fun acc entry =>
      let upd := fun (base : String) (f : Option Nat × Option Nat → Option Nat × Option Nat) =>
        if acc.any (fun e => e.1 == base) then
          acc.map fun e => if e.1 == base then (e.1, f e.2) else e
        else acc ++ [(base, f (none, none))]
      if entry.1.endsWith "_min" then
        upd (entry.1.dropRight 4) (fun r => (some entry.2, r.2))
      else if entry.1.endsWith "_max" then
        upd (entry.1.dropRight 4) (fun r => (r.1, some entry.2))
      else upd entry.1 (fun r => (some entry.2, r.2)))
    []

/-- Strict-band constraints: for every parsed label with a non-empty
covering shift list, the daily headcount over those shifts respects the
declared min and max. -/
def StrictNightOk (input : SolverInput) (work : WorkAssign) : Prop :=
  ∀ entry ∈ strictRequirements input,
    ∀ related ∈ [lookupD
        (buildSpecificTimeRanges input.shifts ((strictRequirements input).map (·.1)))
        entry.1 []],
      ¬ related.isEmpty = true →
      ∀ d ∈ List.range input.numDays,
        (entry.2.1.all fun v =>
          decide (v ≤ ((List.range (numPeople input)).map
            fun p => related.countP (fun s => work p d s)).sum)) = true
        ∧ (entry.2.2.all fun v =>
          decide (((List.range (numPeople input)).map
            fun p => related.countP (fun s => work p d s)).sum ≤ v)) = true

/-- The full hard-constraint model of `solve_shift_scheduling`, family by
family in source emission order.  A boolean assignment extends to a
solution of the CP-SAT model iff it satisfies `Feasible` (the remaining
variables — shortage, overstaff, unmet — are soft and always
satisfiable). -/
def Feasible (input : SolverInput) (work : WorkAssign)
    (recovery : RecoveryAssign) : Prop :=
  InitialRecoveryOk input recovery
  ∧ PairConflictsOk input work
  ∧ AtMostOneShiftOk input work
  ∧ EligibilityOk input work
  ∧ MonthlyBoundsOk input work recovery
  ∧ NightRecoveryDefOk input work recovery
  ∧ CarryBlockOk input work
  ∧ NightRestOk input work
  ∧ ConsecutiveOk input work recovery
  ∧ FixedOffOk input work
  ∧ WishOffOk input work recovery
  ∧ PaidLeaveOffOk input work recovery
  ∧ StrictNightOk input work

/-- The night-rest property as the claim states it: a night assignment on
day `d` forces every shift off on each day `d + k`, `k ∈ [1, restDays]`,
whenever `d + k` itself lies inside the horizon. -/
def NightRestEnforced (input : SolverInput) (work : WorkAssign) : Prop :=
  ∀ p ∈ List.range (numPeople input),
    ∀ entry ∈ input.nightRest,
      (personAt input p).canWork.contains entry.1 = true →
      ∀ d ∈ List.range input.numDays, work p d entry.1 = true →
      ∀ k ∈ List.range' 1 entry.2, d + k < input.numDays →
      ∀ s ∈ allShiftCodes input, work p (d + k) s = false

/-- A three-day horizon with a single night shift `NA` (16-33), rest 2,
and one person who can work it; no carry, wishes, leave or conflicts. -/
def exInput1 : SolverInput :=
  { numDays := 3, weekdayOfDay1 := 0,
    shifts := [⟨"NA", 16, 33⟩],
    dayTypeByDate := ["normalDay", "normalDay", "normalDay"],
    needTemplate := [],
    people := [⟨"alice", ["NA"], [], 0, 100, 0, 10, 0⟩],
    nightRest := [("NA", 2)],
    nightRecoveryCountsRaw := [],
    previousMonthNightCarry := [],
    pairShiftConflictsData := [], pairShiftConflictsRequest := [],
    strictNight := [], wishOffs := [], paidLeaves := [] }

/-- Night shifts on days 1 and 2 of `exInput1` — back to back, because
day 1 lies too close to the horizon end for the constraint to be
emitted. -/
def exWork1 : WorkAssign := fun p d s => p == 0 && (d == 1 || d == 2) && s == "NA"

/-- The recovery assignment forced by `exWork1` (day 2 recovers from the
day-1 night). -/
def exRec1 : RecoveryAssign := fun p d => p == 0 && d == 2

/-- A single night shift on day 0 of `exInput1`, with its forced recovery
days. -/
def exWork1b : WorkAssign := fun p d s => p == 0 && d == 0 && s == "NA"

/-- Recovery days 1 and 2 following the day-0 night of `exWork1b`. -/
def exRec1b : RecoveryAssign := fun p d => p == 0 && (d == 1 || d == 2)

/-- A two-day horizon with one day shift; person `bob` works day 0 and
takes paid leave on day 1, meeting monthly bounds `[1, 2]`. -/
def exInput5 : SolverInput :=
  { numDays := 2, weekdayOfDay1 := 0,
    shifts := [⟨"DA", 9, 17⟩],
    dayTypeByDate := ["normalDay", "normalDay"],
    needTemplate := [],
    people := [⟨"bob", ["DA"], [], 0, 100, 1, 2, 0⟩],
    nightRest := [],
    nightRecoveryCountsRaw := [],
    previousMonthNightCarry := [],
    pairShiftConflictsData := [], pairShiftConflictsRequest := [],
    strictNight := [], wishOffs := [],
    paidLeaves := [("bob", [1])] }

/-- `bob` works `DA` on day 0 only. -/
def exWork5 : WorkAssign := fun p d s => p == 0 && d == 0 && s == "DA"

/-- No recovery days under `exInput5`. -/
def exRec5 : RecoveryAssign := fun _ _ => false

/-- A one-day horizon whose single person has `consecMax = 0`. -/
def exInput7 : SolverInput :=
  { numDays := 1, weekdayOfDay1 := 0,
    shifts := [⟨"DA", 9, 17⟩],
    dayTypeByDate := ["normalDay"],
    needTemplate := [],
    people := [⟨"p1", ["DA"], [], 0, 1000, 0, 1000, 0⟩],
    nightRest := [],
    nightRecoveryCountsRaw := [],
    previousMonthNightCarry := [],
    pairShiftConflictsData := [], pairShiftConflictsRequest := [],
    strictNight := [], wishOffs := [], paidLeaves := [] }

/-- The roster of `exInput7` as the validator sees it. -/
def exPeople7 : List PersonT := [⟨"p1", ["DA"], [], 0, 1000, 0, 1000, 0⟩]

/-- The day shift table shared by the validator scenarios. -/
def exShiftsDA : List ShiftT := [⟨"DA", 9, 17⟩]

/-- A one-day schedule in which `p1` works the day shift. -/
def exSched7 : List (String × List (Option String)) := [("p1", [some "DA"])]

/-- A person allowed two consecutive work days, with ample hour caps. -/
def exPeople2 : List PersonT := [⟨"p1", ["DA"], [], 0, 1000, 0, 1000, 2⟩]

/-- Five worked days interrupted only by the recovery token on day 2:
under the claim this is one unbroken five-day run. -/
def exSched2 : List (String × List (Option String)) :=
  [("p1", [some "DA", some "DA", some "明", some "DA", some "DA"])]

/-! ## Solver driver result mapping and renderer
(`solver.solve_shift_scheduling`, lines 516-581) -/

/-- The CP-SAT statuses the driver can see. -/
inductive SolverStatus
  | optimal
  | feasible
  | infeasible
  | modelInvalid
  | unknown
deriving DecidableEq, Repr

/-- `solver.StatusName(status)`. -/
def statusName : SolverStatus → String
  | .optimal => "OPTIMAL"
  | .feasible => "FEASIBLE"
  | .infeasible => "INFEASIBLE"
  | .modelInvalid => "MODEL_INVALID"
  | .unknown => "UNKNOWN"

/-- `models.CoverageInfo`. -/
structure CoverageInfoT where
  need : Nat
  actual : Nat
  shortage : Nat
deriving DecidableEq, Repr

/-- `models.ShortageInfo` (`day` is 1-based). -/
structure ShortageInfoT where
  day : Nat
  time_range : String
  shortage : Nat
deriving DecidableEq, Repr

/-- The tuple `solve_shift_scheduling` returns. -/
structure SolveResultT where
  schedule : List (String × List (Option String))
  shortages : List ShortageInfoT
  coverageBreakdown : List (Nat × List (String × CoverageInfoT))
  status : String
deriving DecidableEq, Repr

/-- `need_by_day_label`: the need template row for the day's type,
indexed by window label (a missing key would raise in Python; only
configured day types and the five labels occur). -/
def needByDayLabel (input : SolverInput) (d : Nat) (label : String) : Nat :=
  lookupD (lookupD input.needTemplate (input.dayTypeByDate.getD d "") []) label 0

/-- The day-`d` actual coverage of a window: same-day work plus the
previous day's carry-over work, or the previous-month carry count on
day 0. -/
def actualCoverage (input : SolverInput) (workVal : WorkAssign)
    (d : Nat) (label : String) : Nat :=
  ((List.range (numPeople input)).map fun p =>
    (lookupD (sameDayRanges input.shifts) label []).countP
      (fun s => workVal p d s)).sum
  + (if 0 < d then
      ((List.range (numPeople input)).map fun p =>
        (lookupD (carryOverRanges input.shifts) label []).countP
          (fun s => workVal p (d - 1) s)).sum
    else previousCarryCount input label)

/-- End of `solve_shift_scheduling`: schedule, shortage list and coverage
breakdown are initialised empty-per-day, then filled only under
`OPTIMAL`/`FEASIBLE`; the solver's status name is always surfaced.
`workVal`, `recoveryVal` and `shortageVal` stand for `solver.Value` on
the model's variables. -/
def renderSolveResult (input : SolverInput) (status : SolverStatus)
    (workVal : WorkAssign) (recoveryVal : RecoveryAssign)
    (shortageVal : Nat → String → Nat) : SolveResultT :=
  if status = .optimal ∨ status = .feasible then
    { schedule := input.people.enum.map fun pair =>
        (pair.2.id, (List.range input.numDays).map fun d =>
          if recoveryVal pair.1 d then some "明"
          else if (paidLeaveDaysByIndex input pair.1).contains d then some "有給"
          else (allShiftCodes input).find? (fun s => workVal pair.1 d s))
      shortages := (List.range input.numDays).flatMap fun d =>
        (sameDayRanges input.shifts).filterMap fun entry =>
          if 0 < shortageVal d entry.1 then
            some ⟨d + 1, entry.1, shortageVal d entry.1⟩
          else none
      coverageBreakdown := (List.range input.numDays).map fun d =>
        (d + 1, (sameDayRanges input.shifts).map fun entry =>
          (entry.1, ⟨needByDayLabel input d entry.1,
            actualCoverage input workVal d entry.1,
            shortageVal d entry.1⟩))
      status := statusName status }
  else
    { schedule := []
      shortages := []
      coverageBreakdown := (List.range input.numDays).map fun d => (d + 1, [])
      status := statusName status }

/-- A one-day, one-shift, one-person input for the infeasible-result
scenario. -/
def exInput4 : SolverInput :=
  { numDays := 1, weekdayOfDay1 := 0,
    shifts := [⟨"DA", 9, 17⟩],
    dayTypeByDate := ["normalDay"],
    needTemplate := [("normalDay",
      [("7-9", 1), ("9-15", 1), ("16-18", 1), ("18-24", 0), ("0-7", 0)])],
    people := [⟨"p1", ["DA"], [], 0, 100, 0, 100, 0⟩],
    nightRest := [],
    nightRecoveryCountsRaw := [],
    previousMonthNightCarry := [],
    pairShiftConflictsData := [], pairShiftConflictsRequest := [],
    strictNight := [], wishOffs := [], paidLeaves := [] }

/-- The solver outcome of `exInput4` under an INFEASIBLE status (variable
values are irrelevant on that path). -/
def res4 : SolveResultT :=
  renderSolveResult exInput4 .infeasible (fun _ _ _ => false) (fun _ _ => false)
    (fun _ _ => 0)

/-- A concrete persisted state exercising the save path. -/
def st3 : ScheduleStateT := ⟨3, false, [("a", [some "EA"])]⟩

/-- A locked stored state (version 7) for the lock-rejection scenario. -/
def st8 : ScheduleStateT := ⟨7, true, []⟩

/-- A save request with a stale `baseVersion` against `st8`. -/
def req8 : ScheduleSaveRequestT := ⟨[("p", [some "EA"])], some 6⟩

/-- An unlocked stored state (version 4) with one schedule row. -/
def st9 : ScheduleStateT := ⟨4, false, [("p", [some "EA", none])]⟩

/-- A request re-saving exactly `st9`'s schedule at a matching base
version. -/
def req9 : ScheduleSaveRequestT := ⟨[("p", [some "EA", none])], some 4⟩

/-- A locked stored state (version 9). -/
def st10 : ScheduleStateT := ⟨9, true, [("q", [none, some "DA"])]⟩

/-- A request attempting to overwrite `st10`. -/
def req10 : ScheduleSaveRequestT := ⟨[("q", [some "DA", some "DA"])], some 9⟩

/-! # Theorems -/

theorem computeScheduleChanges_self (s : List (String × List (Option String))) :
    computeScheduleChanges s s = [] := by
  unfold computeScheduleChanges
  generalize (sortStrings strLe (dedupFirst (s.map (·.1) ++ s.map (·.1)))) = ids
  induction ids with
  | nil => rfl
  | cons a l ih => simp [List.flatMap_cons, ih]

/-- C1 counterexample: on a 3-day horizon with `nightRest.NA = 2`, the
assignment working `NA` on days 1 and 2 back to back satisfies every hard
constraint the builder emits — because the source skips the night-rest
constraints for any day `d` with `d + restDays ≥ numDays`, the day-1
night leaves days 2 unconstrained — yet it violates the claimed property
at `d = 1`, `k = 1`. -/
theorem night_rest_truncated_window_counterexample :
    Feasible exInput1 exWork1 exRec1 ∧ ¬ NightRestEnforced exInput1 exWork1 :=
  ⟨⟨by unfold InitialRecoveryOk; decide,
    by unfold PairConflictsOk; decide,
    by unfold AtMostOneShiftOk; decide,
    by unfold EligibilityOk; decide,
    by unfold MonthlyBoundsOk; decide,
    by unfold NightRecoveryDefOk; decide,
    by unfold CarryBlockOk; decide,
    by unfold NightRestOk; decide,
    by unfold ConsecutiveOk; decide,
    by unfold FixedOffOk; decide,
    by unfold WishOffOk; decide,
    by unfold PaidLeaveOffOk; decide,
    by unfold StrictNightOk; decide⟩,
   by unfold NightRestEnforced; decide⟩

/-- C1 (amended): night rest is enforced only for night assignments whose
full rest window fits inside the horizon: for every feasible assignment,
person `p`, eligible night code with rest value `r`, and day `d` with
`d + r < numDays`, a night assignment on day `d` forces every shift off
on days `d + 1 … d + r`; for days closer than `r` to the horizon end the
builder emits no night-rest constraint at all. -/
theorem night_rest_enforced_within_full_window (input : SolverInput)
    (work : WorkAssign) (recovery : RecoveryAssign)
    (hfeas : Feasible input work recovery)
    (p : Nat) (hp : p ∈ List.range (numPeople input))
    (entry : String × Nat) (hentry : entry ∈ input.nightRest)
    (hcan : (personAt input p).canWork.contains entry.1 = true)
    (d : Nat) (hd : d ∈ List.range input.numDays)
    (hfits : d + entry.2 < input.numDays)
    (hwork : work p d entry.1 = true)
    (k : Nat) (hk : k ∈ List.range' 1 entry.2)
    (s : String) (hs : s ∈ allShiftCodes input) :
    work p (d + k) s = false := by
  obtain ⟨-, -, -, -, -, -, -, hNR, -⟩ := hfeas
  exact hNR p hp entry hentry hcan d hd hfits hwork k hk s hs

/-- Witness for `night_rest_enforced_within_full_window`: a feasible
schedule of `exInput1` working the night on day 0; day 1 is forced
off. -/
theorem night_rest_enforced_within_full_window_witness :
    Feasible exInput1 exWork1b exRec1b ∧ exWork1b 0 (0 + 1) "NA" = false := by
  have hfeas : Feasible exInput1 exWork1b exRec1b :=
    ⟨by unfold InitialRecoveryOk; decide,
     by unfold PairConflictsOk; decide,
     by unfold AtMostOneShiftOk; decide,
     by unfold EligibilityOk; decide,
     by unfold MonthlyBoundsOk; decide,
     by unfold NightRecoveryDefOk; decide,
     by unfold CarryBlockOk; decide,
     by unfold NightRestOk; decide,
     by unfold ConsecutiveOk; decide,
     by unfold FixedOffOk; decide,
     by unfold WishOffOk; decide,
     by unfold PaidLeaveOffOk; decide,
     by unfold StrictNightOk; decide⟩
  refine ⟨hfeas, ?_⟩
  exact night_rest_enforced_within_full_window exInput1 exWork1b exRec1b hfeas
    0 (by decide) ("NA", 2) (by decide) (by decide) 0 (by decide) (by decide)
    (by decide) 1 (by decide) "NA" (by decide)

/-- C2: the rule post-validator resolves the tokens `"明"` and `"有給"`
to no shift (they are not shift codes), which contributes zero hours —
but the no-shift branch resets the consecutive counter to 0.  At the
failing input `[DA, DA, 明, DA, DA]` with `consecMax = 2` the claim
demands a consecutive-run violation (one unbroken five-day run); the
validator reports none. -/
theorem recovery_token_resets_consecutive_counter :
    validateScheduleRules exSched2 exPeople2 exShiftsDA 5 0 = [] := by
  decide

/-- C4 counterexample: under an INFEASIBLE status on a one-day horizon,
the returned schedule and shortages are empty but the coverage breakdown
is not the empty mapping — it carries one entry per day, each mapping to
an empty per-window table, because the source pre-populates
`{d + 1: {} for d in range(num_days)}` before checking the status. -/
theorem infeasible_breakdown_not_empty_counterexample :
    res4.schedule = [] ∧ res4.shortages = []
      ∧ res4.coverageBreakdown = [(1, [])]
      ∧ res4.coverageBreakdown ≠ []
      ∧ res4.status = "INFEASIBLE" := by
  refine ⟨?_, ?_, ?_, ?_, ?_⟩ <;> decide

/-- C4 (amended): when the solver status is INFEASIBLE, MODEL_INVALID or
UNKNOWN, `solve_shift_scheduling` returns an empty schedule, an empty
shortage list, and a coverage breakdown holding one entry per day of the
horizon, each an empty per-window map (so it contains no coverage data,
but is not the empty mapping when the horizon is non-empty); the status
name is surfaced verbatim. -/
theorem infeasible_status_empty_result (input : SolverInput)
    (status : SolverStatus) (workVal : WorkAssign) (recoveryVal : RecoveryAssign)
    (shortageVal : Nat → String → Nat)
    (hstatus : status = .infeasible ∨ status = .modelInvalid ∨ status = .unknown) :
    (renderSolveResult input status workVal recoveryVal shortageVal).schedule = []
    ∧ (renderSolveResult input status workVal recoveryVal shortageVal).shortages = []
    ∧ (renderSolveResult input status workVal recoveryVal shortageVal).coverageBreakdown
        = (List.range input.numDays).map (fun d => (d + 1, []))
    ∧ (renderSolveResult input status workVal recoveryVal shortageVal).status
        = statusName status := by
  have hnot : ¬ (status = .optimal ∨ status = .feasible) := by
    rcases hstatus with h | h | h <;> subst h <;> rintro (h' | h') <;> cases h'
  refine ⟨?_, ?_, ?_, ?_⟩ <;> simp [renderSolveResult, hnot]

/-- Witness for `infeasible_status_empty_result` at `exInput4` under
MODEL_INVALID. -/
theorem infeasible_status_empty_result_witness :
    (renderSolveResult exInput4 .modelInvalid (fun _ _ _ => false)
        (fun _ _ => false) (fun _ _ => 0)).schedule = []
    ∧ (renderSolveResult exInput4 .modelInvalid (fun _ _ _ => false)
        (fun _ _ => false) (fun _ _ => 0)).shortages = []
    ∧ (renderSolveResult exInput4 .modelInvalid (fun _ _ _ => false)
        (fun _ _ => false) (fun _ _ => 0)).coverageBreakdown
        = (List.range exInput4.numDays).map (fun d => (d + 1, []))
    ∧ (renderSolveResult exInput4 .modelInvalid (fun _ _ _ => false)
        (fun _ _ => false) (fun _ _ => 0)).status = "MODEL_INVALID" :=
  infeasible_status_empty_result exInput4 .modelInvalid (fun _ _ _ => false)
    (fun _ _ => false) (fun _ _ => 0) (Or.inr (Or.inl rfl))

/-- C5: every assignment satisfying the emitted model obeys, for each
person, `monthlyMin ≤ worked days + recovery days + in-range paid-leave
days ≤ monthlyMax` — recovery tokens and paid leave count as worked days
in both the lower and the upper bound. -/
theorem monthly_bounds_count_recovery_and_paid_leave (input : SolverInput)
    (work : WorkAssign) (recovery : RecoveryAssign)
    (hfeas : Feasible input work recovery)
    (p : Nat) (hp : p ∈ List.range (numPeople input)) :
    (personAt input p).monthlyMin ≤
        assignedDaysCount input work p + recoveryDaysCount input recovery p
          + (paidLeaveDaysByIndex input p).length
    ∧ assignedDaysCount input work p + recoveryDaysCount input recovery p
          + (paidLeaveDaysByIndex input p).length
        ≤ (personAt input p).monthlyMax := by
  obtain ⟨-, -, -, -, hM, -⟩ := hfeas
  exact hM p hp

/-- Witness for `monthly_bounds_count_recovery_and_paid_leave`: `bob`
works one day and takes one paid-leave day, landing inside `[1, 2]`. -/
theorem monthly_bounds_count_recovery_and_paid_leave_witness :
    Feasible exInput5 exWork5 exRec5
    ∧ (1 ≤ assignedDaysCount exInput5 exWork5 0
          + recoveryDaysCount exInput5 exRec5 0
          + (paidLeaveDaysByIndex exInput5 0).length
        ∧ assignedDaysCount exInput5 exWork5 0
          + recoveryDaysCount exInput5 exRec5 0
          + (paidLeaveDaysByIndex exInput5 0).length ≤ 2) := by
  have hfeas : Feasible exInput5 exWork5 exRec5 :=
    ⟨by unfold InitialRecoveryOk; decide,
     by unfold PairConflictsOk; decide,
     by unfold AtMostOneShiftOk; decide,
     by unfold EligibilityOk; decide,
     by unfold MonthlyBoundsOk; decide,
     by unfold NightRecoveryDefOk; decide,
     by unfold CarryBlockOk; decide,
     by unfold NightRestOk; decide,
     by unfold ConsecutiveOk; decide,
     by unfold FixedOffOk; decide,
     by unfold WishOffOk; decide,
     by unfold PaidLeaveOffOk; decide,
     by unfold StrictNightOk; decide⟩
  exact ⟨hfeas,
    monthly_bounds_count_recovery_and_paid_leave exInput5 exWork5 exRec5 hfeas
      0 (by decide)⟩

/-- C7: the solver's consecutive-work family is vacuous for a person with
`consecMax = 0` (the builder skips the person entirely), but the rule
post-validator flags that same person for every single worked day: on the
one-day schedule `[DA]` it reports a consecutive-run violation, where the
claim demands none. -/
theorem consec_max_zero_solver_skips_validator_flags :
    (∀ (work : WorkAssign) (recovery : RecoveryAssign),
      ConsecutiveOk exInput7 work recovery)
    ∧ validateScheduleRules exSched7 exPeople7 exShiftsDA 1 0
        = ["p1: 0日を超える連勤 (day 1)"] := by
  constructor
  · intro work recovery
    unfold ConsecutiveOk
    intro p hp
    have hp0 : p = 0 := Nat.lt_one_iff.mp (List.mem_range.mp hp)
    subst hp0
    simp [exInput7, personAt]
  · decide

/-- C3 counterexample: `save_schedule_state` is not a temp-file + rename
write — its operation trace opens the state file itself for writing and
dumps into it, and its last operation is a plain write, not a rename, so
the claimed atomic-save shape fails already on this concrete state. -/
theorem save_not_atomic_counterexample :
    ¬ AtomicTempRenameSave (saveScheduleStateOps ⟨1, false, []⟩) stateFilePath := by
  rintro ⟨tmp, hne, hall, hlast⟩
  simp [saveScheduleStateOps, List.getLast?] at hlast

/-- C3 (amended): `save(state)` persists the schedule state by opening the
state file itself in write mode and dumping the JSON into it in place;
every effect targets the state file directly and no temporary file or
rename is involved, so the write is not atomic in the temp+rename sense
and a concurrent reader can observe a partially written document. -/
theorem save_writes_state_file_in_place (s : ScheduleStateT) :
    saveScheduleStateOps s = [.openWrite stateFilePath, .write stateFilePath s]
    ∧ (∀ op ∈ saveScheduleStateOps s, op.writesTo = some stateFilePath)
    ∧ ¬ AtomicTempRenameSave (saveScheduleStateOps s) stateFilePath := by
  refine ⟨rfl, ?_, ?_⟩
  · intro op hop
    fin_cases hop <;> rfl
  · rintro ⟨tmp, hne, hall, hlast⟩
    simp [saveScheduleStateOps, List.getLast?] at hlast

/-- Witness for `save_writes_state_file_in_place` at a concrete state. -/
theorem save_writes_state_file_in_place_witness :
    (FsOp.write stateFilePath st3) ∈ saveScheduleStateOps st3
    ∧ (FsOp.write stateFilePath st3).writesTo = some stateFilePath
    ∧ ¬ AtomicTempRenameSave (saveScheduleStateOps st3) stateFilePath :=
  ⟨by decide,
    (save_writes_state_file_in_place st3).2.1 (FsOp.write stateFilePath st3) (by decide),
    (save_writes_state_file_in_place st3).2.2⟩

/-- C8: when the stored state is locked, both save handlers fail with the
`LOCKED` error carrying status 423 and the stored version, for every
request — in particular regardless of `baseVersion`, since the lock check
in `enforce_version_and_lock` runs before the version check. -/
theorem locked_state_rejects_all_saves (st : ScheduleStateT)
    (req : ScheduleSaveRequestT) (hlock : st.locked = true) :
    (saveDraft st req).result = .error (.locked st.version)
    ∧ (finalizeSchedule st req).result = .error (.locked st.version)
    ∧ (SaveError.locked st.version).statusCode = 423
    ∧ (SaveError.locked st.version).reason = "LOCKED"
    ∧ (SaveError.locked st.version).currentVersion = st.version := by
  refine ⟨?_, ?_, rfl, rfl, rfl⟩ <;>
    simp [saveDraft, finalizeSchedule, enforceVersionAndLock, hlock]

/-- Witness for `locked_state_rejects_all_saves`: locked version-7 state,
request based on version 6. -/
theorem locked_state_rejects_all_saves_witness :
    st8.locked = true
    ∧ (saveDraft st8 req8).result = .error (.locked 7)
    ∧ (finalizeSchedule st8 req8).result = .error (.locked 7) :=
  ⟨rfl, (locked_state_rejects_all_saves st8 req8 rfl).1,
    (locked_state_rejects_all_saves st8 req8 rfl).2.1⟩

/-- C9: a save-draft of a schedule identical to the stored one, on an
unlocked state with a matching or absent `baseVersion`, succeeds with an
empty change list and version bumped by one; and the diff of any schedule
with itself is empty. -/
theorem identical_save_draft_succeeds (st : ScheduleStateT)
    (req : ScheduleSaveRequestT) (hunlock : st.locked = false)
    (hbase : req.baseVersion = none ∨ req.baseVersion = some st.version)
    (hsched : req.schedule = st.schedule) :
    (saveDraft st req).result =
      Except.ok ⟨st.version + 1, false, ([] : List ScheduleChangeT)⟩
    ∧ ∀ s : List (String × List (Option String)),
        computeScheduleChanges s s = [] := by
  refine ⟨?_, computeScheduleChanges_self⟩
  have henf : enforceVersionAndLock req st = none := by
    rcases hbase with h | h <;> simp [enforceVersionAndLock, hunlock, h]
  simp [saveDraft, henf, buildSaveResponse, hsched, computeScheduleChanges_self]

/-- Witness for `identical_save_draft_succeeds`: re-saving `st9`'s own
schedule at base version 4 yields version 5 and no changes. -/
theorem identical_save_draft_succeeds_witness :
    st9.locked = false
    ∧ (saveDraft st9 req9).result =
        Except.ok ⟨5, false, ([] : List ScheduleChangeT)⟩ :=
  ⟨rfl, (identical_save_draft_succeeds st9 req9 rfl (Or.inr rfl) rfl).1⟩

/-- C10: a save rejected by the version+lock guard (LOCKED or
VERSION_CONFLICT) performs no file-system operation at all — the handlers
only reach `save_schedule_state` after the guard passes — so the
persisted version, lock flag and schedule are untouched. -/
theorem rejected_save_performs_no_write (st : ScheduleStateT)
    (req : ScheduleSaveRequestT) (e : SaveError)
    (h : enforceVersionAndLock req st = some e) :
    (saveDraft st req).result = .error e ∧ (saveDraft st req).fsOps = []
    ∧ (finalizeSchedule st req).result = .error e
    ∧ (finalizeSchedule st req).fsOps = [] := by
  refine ⟨?_, ?_, ?_, ?_⟩ <;> simp [saveDraft, finalizeSchedule, h]

/-- Witness for `rejected_save_performs_no_write` at a locked state. -/
theorem rejected_save_performs_no_write_witness :
    enforceVersionAndLock req10 st10 = some (SaveError.locked 9)
    ∧ (saveDraft st10 req10).fsOps = []
    ∧ (finalizeSchedule st10 req10).fsOps = [] :=
  ⟨by decide,
    (rejected_save_performs_no_write st10 req10 (SaveError.locked 9) (by decide)).2.1,
    (rejected_save_performs_no_write st10 req10 (SaveError.locked 9) (by decide)).2.2.2⟩

theorem mem_dedupFirstAux (a : String) :
    ∀ (l seen : List String), a ∈ dedupFirstAux seen l ↔ a ∈ l ∧ a ∉ seen := by
  intro l
  induction l with
  | nil => intro seen; simp [dedupFirstAux]
  | cons c rest ih =>
    intro seen
    by_cases hc : c ∈ seen
    · simp only [dedupFirstAux, if_pos hc, ih, List.mem_cons]
      constructor
      · rintro ⟨h, hs⟩; exact ⟨Or.inr h, hs⟩
      · rintro ⟨h | h, hs⟩
        · exact absurd (h ▸ hc) hs
        · exact ⟨h, hs⟩
    · simp only [dedupFirstAux, if_neg hc, List.mem_cons, ih, List.mem_append,
        List.mem_singleton]
      constructor
      · rintro (h | ⟨h, hs⟩)
        · exact ⟨Or.inl h, h ▸ hc⟩
        · exact ⟨Or.inr h, fun hx => hs (Or.inl hx)⟩
      · rintro ⟨h | h, hs⟩
        · exact Or.inl h
        · rcases eq_or_ne a c with hac | hac
          · exact Or.inl hac
          · refine Or.inr ⟨h, fun hx => ?_⟩
            rcases hx with hx | hx | hx
            · exact hs hx
            · exact hac hx
            · exact absurd hx (List.not_mem_nil a)


theorem mem_dedupFirst (a : String) (l : List String) :
    a ∈ dedupFirst l ↔ a ∈ l := by
  simp [dedupFirst, mem_dedupFirstAux]


/-- C6 counterexample: the shift `21-31` does appear in `same_day["0-7"]`,
but `carry_over["0-7"]` stays empty even though the post-midnight portion
`[0, 7)` of `21-31` strictly overlaps `[0, 7)` — `_build_time_ranges`
skips every window whose stored interval starts at hour 24 when building
the carry-over map, so the claimed `[0, 7)` carry-over matching of the
`0-7` window never happens. -/
theorem zero_seven_carry_over_counterexample :
    lookupD (sameDayRanges shifts6) "0-7" [] = ["N"]
      ∧ ¬ CarryOverZeroSevenClaim shifts6 := by
  constructor
  · decide
  · unfold CarryOverZeroSevenClaim; decide


/-- C6 (amended): the `0-7` window is matched as `[24, 31)` against a
shift's same-day interval, so every shift covering `(24, 31)` appears in
`same_day["0-7"]`; the `0-7` window is excluded from carry-over matching
entirely, so `carry_over["0-7"]` is the empty list for every shift table. -/
theorem zero_seven_window_mapping (shifts : List ShiftT) (s : ShiftT)
    (hs : s ∈ shifts) (hcov : coversInterval s.start s.stop (24, 31) = true) :
    s.code ∈ lookupD (sameDayRanges shifts) "0-7" []
      ∧ lookupD (carryOverRanges shifts) "0-7" [] = [] := by
  constructor
  · have hsame : lookupD (sameDayRanges shifts) "0-7" [] =
        dedupFirst ((shifts.filter fun t =>
          coversInterval t.start t.stop (24, 31)).map (·.code)) := by
      simp [sameDayRanges, windowIntervals, lookupD, List.find?]
    rw [hsame, mem_dedupFirst]
    exact List.mem_map_of_mem _ (List.mem_filter.mpr ⟨hs, hcov⟩)
  · simp [carryOverRanges, windowIntervals, lookupD, List.find?]


/-- Witness for `zero_seven_window_mapping` at the shift `21-31`. -/
theorem zero_seven_window_mapping_witness :
    (⟨"N", 21, 31⟩ : ShiftT) ∈ shifts6
      ∧ coversInterval 21 31 (24, 31) = true
      ∧ ("N" ∈ lookupD (sameDayRanges shifts6) "0-7" []
          ∧ lookupD (carryOverRanges shifts6) "0-7" [] = []) :=
  ⟨by decide, by decide,
    zero_seven_window_mapping shifts6 ⟨"N", 21, 31⟩ (by decide) (by decide)⟩


end ShiftTool
